import Mathlib

/-!
Verification of the channel video extractor (`pytube/contrib/channel.py`).

The Python code operates on the object tree produced by `json.loads`; we
embed that tree as the inductive type `Json` (JSON numerals are modelled as
integers; `Json.null` is Python `None`, which is also what `json.loads`
produces for a JSON `null`).  Subscripting, iteration and slicing follow
Python semantics, including which exception class each failure raises,
because `_extract_videos` catches exactly `(KeyError, IndexError, TypeError)`
in its locator tiers, only `(KeyError, IndexError)` around the continuation
probe, and nothing around its second extraction loop.
-/

namespace Pytube

/-- Exception classes that can arise from the subscript/iteration operations
used by `_extract_videos`. -/
inductive Exc where
  | keyError
  | indexError
  | typeError
  | attributeError
deriving DecidableEq, Repr

/-- The Python value tree returned by `json.loads`: JSON objects become dicts
(insertion-ordered, string keys), arrays become lists, `null` becomes `None`
(here `Json.null`).  Numerals are modelled as integers. -/
inductive Json where
  | null
  | bool (b : Bool)
  | num (n : Int)
  | str (s : String)
  | arr (xs : List Json)
  | obj (fields : List (String × Json))

/-- Membership of the exception in the tuple `(KeyError, IndexError, TypeError)`
caught by the three schema tiers and by the first extraction loop. -/
def caughtKIT : Exc → Bool
  | .keyError => true
  | .indexError => true
  | .typeError => true
  | .attributeError => false

/-- Membership of the exception in the tuple `(KeyError, IndexError)` caught
around the continuation-token probe. -/
def caughtKI : Exc → Bool
  | .keyError => true
  | .indexError => true
  | _ => false

/-- Python `value[key]` for a string key: dict lookup (`KeyError` when the key
is missing), `TypeError` on any non-dict (lists and strings demand integer
indices, scalars are not subscriptable). -/
def Json.getKey (j : Json) (k : String) : Except Exc Json :=
  match j with
  | .obj fs =>
    match fs.lookup k with
    | some v => .ok v
    | none => .error .keyError
  | _ => .error .typeError

/-- Python `value[i]` for an integer index: list/str indexing with negative
offsets and `IndexError` out of range; a dict raises `KeyError` (its keys are
strings, never equal to an integer); scalars raise `TypeError`. -/
def Json.getIdx (j : Json) (i : Int) : Except Exc Json :=
  match j with
  | .arr xs =>
    let k : Int := if i < 0 then i + xs.length else i
    if h : 0 ≤ k ∧ k.toNat < xs.length then .ok (xs.get ⟨k.toNat, h.2⟩)
    else .error .indexError
  | .str s =>
    let cs := s.data
    let k : Int := if i < 0 then i + cs.length else i
    if h : 0 ≤ k ∧ k.toNat < cs.length then .ok (.str (String.mk [cs.get ⟨k.toNat, h.2⟩]))
    else .error .indexError
  | .obj _ => .error .keyError
  | _ => .error .typeError

/-- Python `for x in value`: lists yield their elements, dicts their keys,
strings their characters; everything else raises `TypeError`. -/
def Json.pyIter (j : Json) : Except Exc (List Json) :=
  match j with
  | .arr xs => .ok xs
  | .obj fs => .ok (fs.map (fun p => Json.str p.1))
  | .str s => .ok (s.data.map (fun c => Json.str (String.mk [c])))
  | _ => .error .typeError

/-- Python `value[:-1]`: slicing applies to lists and strings; a dict raises
`TypeError` (slices are unhashable keys), scalars are not subscriptable. -/
def Json.pyDropLast (j : Json) : Except Exc Json :=
  match j with
  | .arr xs => .ok (.arr xs.dropLast)
  | .str s => .ok (.str (String.mk s.data.dropLast))
  | _ => .error .typeError

/-- Python `repr` of a string as used when a string occurs inside the `str()`
of a container (single quotes, switching to double quotes when the string
itself holds one; escape sequences are not needed at any input considered
here). -/
def pyStrQuoted (s : String) : String :=
  if s.data.contains '\'' then "\"" ++ s ++ "\"" else "'" ++ s ++ "'"

mutual

/-- Python `repr` of a loaded JSON value (`None`/`True`/`False`, decimal
integers, quoted strings, bracketed lists, braced dicts). -/
def Json.pyRepr : Json → String
  | .null => "None"
  | .bool true => "True"
  | .bool false => "False"
  | .num n => toString n
  | .str s => pyStrQuoted s
  | .arr xs => "[" ++ pyReprList xs ++ "]"
  | .obj fs => "\x7b" ++ pyReprFields fs ++ "\x7d"

/-- Comma-separated `repr` of list elements. -/
def pyReprList : List Json → String
  | [] => ""
  | [x] => Json.pyRepr x
  | x :: y :: xs => Json.pyRepr x ++ ", " ++ pyReprList (y :: xs)

/-- Comma-separated `repr` of dict entries. -/
def pyReprFields : List (String × Json) → String
  | [] => ""
  | [(k, v)] => pyStrQuoted k ++ ": " ++ Json.pyRepr v
  | (k, v) :: f :: fs => pyStrQuoted k ++ ": " ++ Json.pyRepr v ++ ", " ++ pyReprFields (f :: fs)

end

/-- Python `str()` of a loaded JSON value, as interpolated by the f-string
`f"/watch?v=(...)"`: identical to `repr` except that a top-level string is
rendered verbatim. -/
def Json.pyStr : Json → String
  | .str s => s
  | j => j.pyRepr

/-- Python `s.rsplit("/", maxsplit=1)[-1]`: the substring after the last `/`
(the whole string when it has no `/`).  Implemented by a left-to-right scan
that restarts its accumulator at each separator. -/
def lastSegmentChars : List Char → List Char → List Char
  | [], acc => acc.reverse
  | c :: cs, acc => if c = '/' then lastSegmentChars cs [] else lastSegmentChars cs (c :: acc)

/-- The last `/`-separated segment of a string, see `lastSegmentChars`. -/
def lastSegment (s : String) : String := String.mk (lastSegmentChars s.data [])

/-- The attributes of a `Channel` object that `_extract_videos` and
`_build_continuation_url` can read or write.  `visitor_data` is `_visitor_data`
(initialised to `None`, i.e. `Json.null`); the `Option String` caches start as
`None` in `__init__`. -/
structure ChannelState where
  html_url : String
  yt_api_key : String
  html : Option String
  initial_data : Option Json
  visitor_data : Json
  playlists_html : Option String
  community_html : Option String
  featured_channels_html : Option String
  about_html : Option String

/-- Modelled from the spec: the traversal of `uniqueify` (from
`pytube.helpers`, whose file is not part of the sources here) — a single pass
that appends an element to the result only when it has not been seen yet, so
that "dedup is stable (first-seen wins)". -/
def uniqAux : List String → List String → List String
  | [], acc => acc
  | x :: xs, acc => if acc.contains x then uniqAux xs acc else uniqAux xs (acc ++ [x])

/-- Modelled from the spec: `uniqueify` deduplicates a list while preserving
the order of first occurrence, see `uniqAux`. -/
def uniqueify (l : List String) : List String := uniqAux l []

/-- The "full video" variant path
`x['richItemRenderer']['content']['videoRenderer']['videoId']`. -/
def fullVideoId (x : Json) : Except Exc Json :=
  x.getKey "richItemRenderer" >>= fun a =>
  a.getKey "content" >>= fun b =>
  b.getKey "videoRenderer" >>= fun c =>
  c.getKey "videoId"

/-- The "short-form video" variant path
`x['richItemRenderer']['content']['reelItemRenderer']['videoId']`. -/
def reelVideoId (x : Json) : Except Exc Json :=
  x.getKey "richItemRenderer" >>= fun a =>
  a.getKey "content" >>= fun b =>
  b.getKey "reelItemRenderer" >>= fun c =>
  c.getKey "videoId"

/-- The continuation-token probe applied to the last item:
`item['continuationItemRenderer']['continuationEndpoint']['continuationCommand']['token']`. -/
def continuationTokenOf (item : Json) : Except Exc Json :=
  item.getKey "continuationItemRenderer" >>= fun a =>
  a.getKey "continuationEndpoint" >>= fun b =>
  b.getKey "continuationCommand" >>= fun c =>
  c.getKey "token"

/-- The `try`/`except (KeyError, IndexError)` block around the continuation
probe: on success the token is captured and `videos = videos[:-1]`; a caught
failure leaves the list unchanged with `continuation = None`; any other
exception (notably `TypeError`) propagates. -/
def stripContinuation (videos : Json) : Except Exc (Json × Json) :=
  match (videos.getIdx (-1) >>= fun last =>
         continuationTokenOf last >>= fun tok =>
         videos.pyDropLast >>= fun rest =>
         .ok (rest, tok) : Except Exc (Json × Json)) with
  | .ok r => .ok r
  | .error e => if caughtKI e then .ok (videos, .null) else .error e

/-- One extraction loop (`for x in videos: videos_url.append(...)`): appends
`/watch?v=` URLs to the accumulator until an item fails, returning what was
appended so far together with the exception, if any.  Appends made before a
failure stay in `videos_url`. -/
def extractIdsLoop (f : Json → Except Exc Json) : List Json → List String → List String × Option Exc
  | [], acc => (acc, none)
  | x :: xs, acc =>
    match f x with
    | .ok v => extractIdsLoop f xs (acc ++ ["/watch?v=" ++ v.pyStr])
    | .error e => (acc, some e)

/-- The two extraction loops: the full-video loop runs under
`except (KeyError, IndexError, TypeError)`; on a caught failure the whole list
is re-iterated under the short-form path with the already-appended URLs still
in `videos_url`, and any failure of that second loop propagates uncaught. -/
def extractVideoUrls (videos : Json) : Except Exc (List String) :=
  match (match videos.pyIter with
         | .error e => (([] : List String), some e)
         | .ok xs => extractIdsLoop fullVideoId xs []) with
  | (urls, none) => .ok urls
  | (urls, some e) =>
    if caughtKIT e then
      match videos.pyIter with
      | .error e2 => .error e2
      | .ok xs =>
        match extractIdsLoop reelVideoId xs urls with
        | (urls2, none) => .ok urls2
        | (_, some e2) => .error e2
    else .error e

/-- The tab-scanning loop of the full-page tier: walk the tabs, read each
tab's URL (a non-string raises `AttributeError` at `.rsplit`, which no
`except` clause lists), and return the first tab whose final URL segment
equals the final segment of `html_url`; when none matches, `active_tab`
remains the empty dict. -/
def findActiveTab (selector : String) : List Json → Except Exc Json
  | [] => .ok (.obj [])
  | tab :: rest =>
    match (tab.getKey "tabRenderer" >>= fun t =>
           t.getKey "endpoint" >>= fun t =>
           t.getKey "commandMetadata" >>= fun t =>
           t.getKey "webCommandMetadata" >>= fun t =>
           t.getKey "url" : Except Exc Json) with
    | .error e => .error e
    | .ok u =>
      match u with
      | .str s => if lastSegment s = selector then .ok tab else findActiveTab selector rest
      | _ => .error .attributeError

/-- The full-page tier up to the grid: locate the active tab by URL segment
and read `['tabRenderer']['content']['richGridRenderer']['contents']`. -/
def locateGrid (htmlUrl : String) (doc : Json) : Except Exc Json :=
  doc.getKey "contents" >>= fun c =>
  c.getKey "twoColumnBrowseResultsRenderer" >>= fun c =>
  c.getKey "tabs" >>= fun tabs =>
  tabs.pyIter >>= fun tabList =>
  findActiveTab (lastSegment htmlUrl) tabList >>= fun active =>
  active.getKey "tabRenderer" >>= fun t =>
  t.getKey "content" >>= fun t =>
  t.getKey "richGridRenderer" >>= fun t =>
  t.getKey "contents"

/-- The visitor-data lookup of the full-page tier:
`doc['responseContext']['webResponseContextExtensionData']['ytConfigData']['visitorData']`. -/
def visitorDataOf (doc : Json) : Except Exc Json :=
  doc.getKey "responseContext" >>= fun r =>
  r.getKey "webResponseContextExtensionData" >>= fun r =>
  r.getKey "ytConfigData" >>= fun r =>
  r.getKey "visitorData"

/-- The whole body of the first `try` block: in source order, the grid is
located and then the visitor data is read, so a failure at either point
abandons the tier as a whole. -/
def tryFullPage (htmlUrl : String) (doc : Json) : Except Exc (Json × Json) :=
  locateGrid htmlUrl doc >>= fun videos =>
  visitorDataOf doc >>= fun vd =>
  .ok (videos, vd)

/-- The wrapped continuation tier:
`doc[1]['response']['onResponseReceivedActions'][0]['appendContinuationItemsAction']['continuationItems']`. -/
def tryWrappedContinuation (doc : Json) : Except Exc Json :=
  doc.getIdx 1 >>= fun x =>
  x.getKey "response" >>= fun x =>
  x.getKey "onResponseReceivedActions" >>= fun x =>
  x.getIdx 0 >>= fun x =>
  x.getKey "appendContinuationItemsAction" >>= fun x =>
  x.getKey "continuationItems"

/-- The bare continuation tier:
`doc['onResponseReceivedActions'][0]['appendContinuationItemsAction']['continuationItems']`. -/
def tryBareContinuation (doc : Json) : Except Exc Json :=
  doc.getKey "onResponseReceivedActions" >>= fun x =>
  x.getIdx 0 >>= fun x =>
  x.getKey "appendContinuationItemsAction" >>= fun x =>
  x.getKey "continuationItems"

/-- Everything after the content list has been located: strip a trailing
continuation marker, run the two extraction loops, deduplicate. -/
def processVideos (videos : Json) : Except Exc (List String × Json) :=
  stripContinuation videos >>= fun sc =>
  extractVideoUrls sc.1 >>= fun urls =>
  .ok (uniqueify urls, sc.2)

/-- `_extract_videos` on an already-parsed document: the three locator tiers
each under `except (KeyError, IndexError, TypeError)`, falling through to
`([], None)` when all three fail with a caught exception; the state is the
`Channel` object, whose `_visitor_data` is assigned exactly when the
full-page tier succeeds as a whole (the assignment's right-hand side is the
last expression of the first `try` block, so it runs before any later
failure can escape). -/
def extract_videos (st : ChannelState) (doc : Json) :
    ChannelState × Except Exc (List String × Json) :=
  match tryFullPage st.html_url doc with
  | .ok (videos, vd) => ({ st with visitor_data := vd }, processVideos videos)
  | .error e =>
    if caughtKIT e then
      match tryWrappedContinuation doc with
      | .ok videos => (st, processVideos videos)
      | .error e2 =>
        if caughtKIT e2 then
          match tryBareContinuation doc with
          | .ok videos => (st, processVideos videos)
          | .error e3 =>
            if caughtKIT e3 then (st, .ok ([], Json.null)) else (st, .error e3)
        else (st, .error e2)
    else (st, .error e)

/-- `_build_continuation_url`: the browse endpoint keyed by `yt_api_key`, the
fixed client headers, and the POST body with the continuation token, the
stored `_visitor_data`, and the fixed client context block. -/
def build_continuation_url (st : ChannelState) (continuation : String) :
    String × List (String × String) × Json :=
  ("https://www.youtube.com/youtubei/v1/browse?key=" ++ st.yt_api_key,
   [("X-YouTube-Client-Name", "1"),
    ("X-YouTube-Client-Version", "2.20200720.00.02")],
   .obj [("continuation", .str continuation),
         ("context", .obj
           [("client", .obj
             [("clientName", .str "WEB"),
              ("visitorData", st.visitor_data),
              ("clientVersion", .str "2.20200720.00.02")])])])

/-- A grid item in the "full video" variant, carrying the given video id. -/
def fullVideoItem (id : String) : Json :=
  .obj [("richItemRenderer", .obj
    [("content", .obj
      [("videoRenderer", .obj [("videoId", .str id)])])])]

/-- A grid item in the "short-form video" (reel) variant. -/
def reelItem (id : String) : Json :=
  .obj [("richItemRenderer", .obj
    [("content", .obj
      [("reelItemRenderer", .obj [("videoId", .str id)])])])]

/-- A trailing continuation-marker item embedding the given token. -/
def contMarker (tok : String) : Json :=
  .obj [("continuationItemRenderer", .obj
    [("continuationEndpoint", .obj
      [("continuationCommand", .obj [("token", .str tok)])])])]

/-- A document in the bare continuation shape holding the given items. -/
def bareContinuationDoc (items : List Json) : Json :=
  .obj [("onResponseReceivedActions", .arr
    [.obj [("appendContinuationItemsAction", .obj
      [("continuationItems", .arr items)])]])]

/-- A full-page document for the `videos` tab: one matching tab whose grid
holds the given items, with no `responseContext` (hence no visitor data). -/
def fullPageDocNoVisitor (items : List Json) : Json :=
  .obj [("contents", .obj
    [("twoColumnBrowseResultsRenderer", .obj
      [("tabs", .arr
        [.obj [("tabRenderer", .obj
          [("endpoint", .obj
            [("commandMetadata", .obj
              [("webCommandMetadata", .obj [("url", .str "/c/test/videos")])])]),
           ("content", .obj
             [("richGridRenderer", .obj [("contents", .arr items)])])])]])])])]

/-- A document whose only tab carries a numeric `url` value, so that the tab
scan reaches `5 .rsplit` and raises `AttributeError`. -/
def badUrlDoc : Json :=
  .obj [("contents", .obj
    [("twoColumnBrowseResultsRenderer", .obj
      [("tabs", .arr
        [.obj [("tabRenderer", .obj
          [("endpoint", .obj
            [("commandMetadata", .obj
              [("webCommandMetadata", .obj [("url", .num 5)])])])])]])])])]

/-- A concrete channel state as `__init__` leaves it, pointed at the
`/videos` tab. -/
def st0 : ChannelState :=
  { html_url := "https://www.youtube.com/c/test/videos"
    yt_api_key := "KEY"
    html := none
    initial_data := none
    visitor_data := .null
    playlists_html := none
    community_html := none
    featured_channels_html := none
    about_html := none }

/-- The URL string built for one extracted video id. -/
def urlOf (id : String) : String := "/watch?v=" ++ id

/-- The procedure named by the spec for the variant fallback: try the
full-video path on the whole list; if that fails anywhere, retry the entire
list under the short-form path. -/
def mapVideoIds (f : Json → Except Exc Json) : List Json → Except Exc (List String)
  | [] => .ok []
  | x :: xs =>
    f x >>= fun v =>
    mapVideoIds f xs >>= fun rest =>
    .ok (("/watch?v=" ++ v.pyStr) :: rest)

/-- Whole-list two-pass extraction as the spec words it: the full-video pass
first, and on any failure one short-form pass over the entire list. -/
def twoPassSpec (xs : List Json) : Except Exc (List String) :=
  match mapVideoIds fullVideoId xs with
  | .ok us => .ok us
  | .error _ => mapVideoIds reelVideoId xs

/-- The value `_visitor_data` holds after a call of `_extract_videos`: the
document's visitor data when the full-page tier succeeds as a whole, the
previous value otherwise. -/
def visitorDataAfter (st : ChannelState) (doc : Json) : Json :=
  match tryFullPage st.html_url doc with
  | .ok (_, vd) => vd
  | .error _ => st.visitor_data

theorem ok_bind {α β : Type} (a : α) (f : α → Except Exc β) :
    ((.ok a : Except Exc α) >>= f) = f a := rfl

theorem err_bind {α β : Type} (e : Exc) (f : α → Except Exc β) :
    ((.error e : Except Exc α) >>= f) = .error e := rfl

theorem bind_ne_attr {α β : Type} (x : Except Exc α) (f : α → Except Exc β)
    (hx : x ≠ .error .attributeError) (hf : ∀ a, f a ≠ .error .attributeError) :
    (x >>= f) ≠ .error .attributeError := by
  cases x with
  | error e =>
    rw [err_bind]
    intro h
    have he : e = Exc.attributeError := by injection h
    exact hx (by rw [he])
  | ok a => rw [ok_bind]; exact hf a

theorem getKey_ne_attr (j : Json) (k : String) : j.getKey k ≠ .error .attributeError := by
  cases j <;> simp [Json.getKey]
  case obj fs => cases fs.lookup k <;> simp

theorem getIdx_ne_attr (j : Json) (i : Int) : j.getIdx i ≠ .error .attributeError := by
  cases j <;> simp only [Json.getIdx] <;> try simp
  case arr xs => split <;> split <;> simp
  case str s => split <;> split <;> simp

theorem pyIter_ne_attr (j : Json) : j.pyIter ≠ .error .attributeError := by
  cases j <;> simp [Json.pyIter]

theorem ne_attr_caught {α : Type} {e : Exc}
    (h : (Except.error e : Except Exc α) ≠ .error .attributeError) : caughtKIT e = true := by
  cases e <;> simp [caughtKIT] at h ⊢

theorem visitorDataOf_ne_attr (doc : Json) : visitorDataOf doc ≠ .error .attributeError :=
  bind_ne_attr _ _ (getKey_ne_attr _ _) fun _ =>
  bind_ne_attr _ _ (getKey_ne_attr _ _) fun _ =>
  bind_ne_attr _ _ (getKey_ne_attr _ _) fun _ => getKey_ne_attr _ _

theorem tryWrappedContinuation_ne_attr (doc : Json) :
    tryWrappedContinuation doc ≠ .error .attributeError :=
  bind_ne_attr _ _ (getIdx_ne_attr _ _) fun _ =>
  bind_ne_attr _ _ (getKey_ne_attr _ _) fun _ =>
  bind_ne_attr _ _ (getKey_ne_attr _ _) fun _ =>
  bind_ne_attr _ _ (getIdx_ne_attr _ _) fun _ =>
  bind_ne_attr _ _ (getKey_ne_attr _ _) fun _ => getKey_ne_attr _ _

theorem tryBareContinuation_ne_attr (doc : Json) :
    tryBareContinuation doc ≠ .error .attributeError :=
  bind_ne_attr _ _ (getKey_ne_attr _ _) fun _ =>
  bind_ne_attr _ _ (getIdx_ne_attr _ _) fun _ =>
  bind_ne_attr _ _ (getKey_ne_attr _ _) fun _ => getKey_ne_attr _ _

theorem tryWrappedContinuation_err_caught {doc : Json} {e : Exc}
    (h : tryWrappedContinuation doc = .error e) : caughtKIT e = true :=
  ne_attr_caught (h ▸ tryWrappedContinuation_ne_attr doc)

theorem tryBareContinuation_err_caught {doc : Json} {e : Exc}
    (h : tryBareContinuation doc = .error e) : caughtKIT e = true :=
  ne_attr_caught (h ▸ tryBareContinuation_ne_attr doc)

theorem visitorDataOf_err_caught {doc : Json} {e : Exc}
    (h : visitorDataOf doc = .error e) : caughtKIT e = true :=
  ne_attr_caught (h ▸ visitorDataOf_ne_attr doc)

theorem get_concat (xs : List Json) (x : Json) (h : xs.length < (xs ++ [x]).length) :
    (xs ++ [x]).get ⟨xs.length, h⟩ = x := by
  induction xs with
  | nil => rfl
  | cons y ys ih =>
    have h' : ys.length < (ys ++ [x]).length := by simp
    exact ih h'

theorem getElem_concat_of_eq {xs : List Json} {x : Json} {K : Nat} (hK : K = xs.length)
    (h : K < (xs ++ [x]).length) : (xs ++ [x])[K] = x := by
  subst hK
  rw [List.getElem_append_right (Nat.le_refl _)]
  simp

theorem getIdx_concat_neg_one (xs : List Json) (x : Json) :
    (Json.arr (xs ++ [x])).getIdx (-1) = .ok x := by
  simp only [Json.getIdx]
  split
  case isFalse h => exact absurd (by norm_num) h
  case isTrue h =>
    split
    case isTrue h2 =>
      refine congrArg Except.ok (getElem_concat_of_eq ?_ h2.2)
      simp only [List.length_append, List.length_cons, List.length_nil]
      omega
    case isFalse h2 =>
      exfalso
      apply h2
      simp only [List.length_append, List.length_cons, List.length_nil]
      constructor <;> omega

theorem stripContinuation_marker (xs : List Json) (tok : String) :
    stripContinuation (.arr (xs ++ [contMarker tok])) = .ok (.arr xs, .str tok) := by
  have h1 := getIdx_concat_neg_one xs (contMarker tok)
  have h2 : continuationTokenOf (contMarker tok) = .ok (.str tok) := rfl
  simp [stripContinuation, h1, h2, ok_bind, Json.pyDropLast]

theorem stripContinuation_no_marker {x : Json} {e : Exc} (hx : continuationTokenOf x = .error e)
    (he : caughtKI e = true) (xs : List Json) :
    stripContinuation (.arr (xs ++ [x])) = .ok (.arr (xs ++ [x]), .null) := by
  have h1 := getIdx_concat_neg_one xs x
  simp [stripContinuation, h1, ok_bind, hx, err_bind, he]

theorem stripContinuation_nil : stripContinuation (.arr []) = .ok (.arr [], .null) := rfl

theorem extractIdsLoop_snd_indep (f : Json → Except Exc Json) :
    ∀ (xs : List Json) (acc acc' : List String),
      (extractIdsLoop f xs acc).2 = (extractIdsLoop f xs acc').2
  | [], _, _ => rfl
  | x :: xs, acc, acc' => by
    simp only [extractIdsLoop]
    cases f x with
    | ok v => exact extractIdsLoop_snd_indep f xs _ _
    | error e => rfl

theorem extractIdsLoop_reel (ids : List String) :
    ∀ acc, extractIdsLoop reelVideoId (ids.map reelItem) acc = (acc ++ ids.map urlOf, none) := by
  induction ids with
  | nil => intro acc; simp [extractIdsLoop]
  | cons i rest ih =>
    intro acc
    have hr : reelVideoId (reelItem i) = .ok (.str i) := rfl
    simp only [List.map_cons, extractIdsLoop, hr]
    rw [ih]
    simp [urlOf, Json.pyStr]

theorem extractIdsLoop_full_on_reel (i : String) (rest : List Json) (acc : List String) :
    extractIdsLoop fullVideoId (reelItem i :: rest) acc = (acc, some .keyError) := by
  have hf : fullVideoId (reelItem i) = .error .keyError := rfl
  simp [extractIdsLoop, hf]

theorem extractVideoUrls_arr (xs : List Json) :
    extractVideoUrls (.arr xs) =
      match extractIdsLoop fullVideoId xs [] with
      | (urls, none) => .ok urls
      | (urls, some e) =>
        if caughtKIT e then
          match extractIdsLoop reelVideoId xs urls with
          | (urls2, none) => .ok urls2
          | (_, some e2) => .error e2
        else .error e := rfl

theorem extractVideoUrls_reel (ids : List String) :
    extractVideoUrls (.arr (ids.map reelItem)) = .ok (ids.map urlOf) := by
  cases ids with
  | nil => rfl
  | cons i rest =>
    have h2 : extractIdsLoop reelVideoId (reelItem i :: List.map reelItem rest) [] =
        ([] ++ List.map urlOf (i :: rest), none) := by
      have h := extractIdsLoop_reel (i :: rest) []
      simpa [List.map_cons] using h
    simp only [extractVideoUrls_arr, List.map_cons, extractIdsLoop_full_on_reel,
      caughtKIT, if_true, h2]
    simp

theorem mapVideoIds_reel (ids : List String) :
    mapVideoIds reelVideoId (ids.map reelItem) = .ok (ids.map urlOf) := by
  induction ids with
  | nil => rfl
  | cons i rest ih =>
    have hr : reelVideoId (reelItem i) = .ok (.str i) := rfl
    simp [mapVideoIds, hr, ok_bind, ih, urlOf, Json.pyStr]

theorem twoPassSpec_reel (ids : List String) :
    twoPassSpec (ids.map reelItem) = .ok (ids.map urlOf) := by
  cases ids with
  | nil => rfl
  | cons i rest =>
    have hf : fullVideoId (reelItem i) = .error .keyError := rfl
    have h1 : mapVideoIds fullVideoId ((i :: rest).map reelItem) = .error .keyError := by
      simp [mapVideoIds, hf, err_bind]
    simp only [twoPassSpec, h1]
    exact mapVideoIds_reel (i :: rest)

theorem extract_videos_bareDoc (st : ChannelState) (items : List Json) :
    extract_videos st (bareContinuationDoc items) = (st, processVideos (.arr items)) := rfl

theorem processVideos_reel (ids : List String) :
    processVideos (.arr (ids.map reelItem)) = .ok (uniqueify (ids.map urlOf), .null) := by
  rcases List.eq_nil_or_concat ids with h | ⟨L, b, h⟩
  · subst h; rfl
  · subst h
    rw [List.concat_eq_append] at *
    have hm : (L ++ [b]).map reelItem = L.map reelItem ++ [reelItem b] := by simp
    have hnm : continuationTokenOf (reelItem b) = .error .keyError := rfl
    have hs := stripContinuation_no_marker hnm rfl (L.map reelItem)
    have he := extractVideoUrls_reel (L ++ [b])
    rw [hm] at he
    simp [processVideos, hs, ok_bind, he]

theorem contains_iff (acc : List String) (x : String) : acc.contains x = true ↔ x ∈ acc :=
  List.elem_iff

theorem uniqAux_spec :
    ∀ (l acc : List String),
      ∃ t, uniqAux l acc = acc ++ t ∧ List.Sublist t l ∧ (∀ a ∈ t, a ∉ acc) ∧ t.Nodup ∧
        (∀ a, a ∈ t ↔ (a ∈ l ∧ a ∉ acc)) ∧
        t.Pairwise (fun a b => l.indexOf a < l.indexOf b) := by
  intro l
  induction l with
  | nil =>
    intro acc
    exact ⟨[], by simp [uniqAux], by simp, by simp, by simp, by simp, by simp⟩
  | cons x xs ih =>
    intro acc
    by_cases hx : x ∈ acc
    · obtain ⟨t, ht, hsub, hnotin, hnd, hmem, hpw⟩ := ih acc
      refine ⟨t, ?_, hsub.trans (List.sublist_cons_self x xs), hnotin, hnd, ?_, ?_⟩
      · rw [show uniqAux (x :: xs) acc = uniqAux xs acc from by simp [uniqAux, hx]]
        exact ht
      · intro a
        rw [hmem a]
        constructor
        · rintro ⟨ha, hna⟩
          exact ⟨List.mem_cons_of_mem _ ha, hna⟩
        · rintro ⟨ha, hna⟩
          cases List.mem_cons.mp ha with
          | inl h => exact absurd (h ▸ hx) hna
          | inr h => exact ⟨h, hna⟩
      · refine List.Pairwise.imp_of_mem ?_ hpw
        intro a b ha hb hlt
        have hax : x ≠ a := fun h => ((hmem a).mp ha).2 (h ▸ hx)
        have hbx : x ≠ b := fun h => ((hmem b).mp hb).2 (h ▸ hx)
        rw [List.indexOf_cons_ne _ hax, List.indexOf_cons_ne _ hbx]
        exact Nat.succ_lt_succ hlt
    · obtain ⟨t, ht, hsub, hnotin, hnd, hmem, hpw⟩ := ih (acc ++ [x])
      have hxmem : x ∈ acc ++ [x] := List.mem_append_right _ (List.mem_singleton_self x)
      refine ⟨x :: t, ?_, List.Sublist.cons₂ x hsub, ?_, ?_, ?_, ?_⟩
      · rw [show uniqAux (x :: xs) acc = uniqAux xs (acc ++ [x]) from by simp [uniqAux, hx]]
        rw [ht, List.append_assoc]
        rfl
      · intro a ha
        cases List.mem_cons.mp ha with
        | inl h => exact h ▸ hx
        | inr h => exact fun hin => hnotin a h (List.mem_append_left _ hin)
      · rw [List.nodup_cons]
        exact ⟨fun hin => hnotin x hin hxmem, hnd⟩
      · intro a
        rw [List.mem_cons, hmem a]
        constructor
        · rintro (h | ⟨ha, hna⟩)
          · exact ⟨h ▸ List.mem_cons_self x xs, h ▸ hx⟩
          · exact ⟨List.mem_cons_of_mem _ ha, fun hin => hna (List.mem_append_left _ hin)⟩
        · rintro ⟨ha, hna⟩
          by_cases hax : a = x
          · exact Or.inl hax
          · cases List.mem_cons.mp ha with
            | inl h => exact absurd h hax
            | inr h =>
              refine Or.inr ⟨h, fun hin => ?_⟩
              cases List.mem_append.mp hin with
              | inl h2 => exact hna h2
              | inr h2 => exact hax (List.mem_singleton.mp h2)
      · rw [List.pairwise_cons]
        constructor
        · intro b hb
          have hbx : x ≠ b := fun h => hnotin b hb (h ▸ hxmem)
          rw [List.indexOf_cons_self, List.indexOf_cons_ne _ hbx]
          exact Nat.succ_pos _
        · refine List.Pairwise.imp_of_mem ?_ hpw
          intro a b ha hb hlt
          have hax : x ≠ a := fun h => hnotin a ha (h ▸ hxmem)
          have hbx : x ≠ b := fun h => hnotin b hb (h ▸ hxmem)
          rw [List.indexOf_cons_ne _ hax, List.indexOf_cons_ne _ hbx]
          exact Nat.succ_lt_succ hlt

theorem uniqueify_eq_of_aux (l : List String) :
    ∃ t, uniqueify l = t ∧ List.Sublist t l ∧ t.Nodup ∧ (∀ a, a ∈ t ↔ a ∈ l) ∧
      t.Pairwise (fun a b => l.indexOf a < l.indexOf b) := by
  obtain ⟨t, ht, hsub, _, hnd, hmem, hpw⟩ := uniqAux_spec l []
  refine ⟨t, by simpa [uniqueify] using ht, hsub, hnd, ?_, hpw⟩
  intro a
  rw [hmem a]
  simp

theorem uniqueify_sublist (l : List String) : List.Sublist (uniqueify l) l := by
  obtain ⟨t, ht, hsub, _, _, _⟩ := uniqueify_eq_of_aux l
  rw [ht]
  exact hsub

theorem uniqueify_nodup (l : List String) : (uniqueify l).Nodup := by
  obtain ⟨t, ht, _, hnd, _, _⟩ := uniqueify_eq_of_aux l
  rw [ht]
  exact hnd

theorem mem_uniqueify (l : List String) (a : String) : a ∈ uniqueify l ↔ a ∈ l := by
  obtain ⟨t, ht, _, _, hmem, _⟩ := uniqueify_eq_of_aux l
  rw [ht]
  exact hmem a

theorem uniqueify_pairwise (l : List String) :
    (uniqueify l).Pairwise (fun a b => l.indexOf a < l.indexOf b) := by
  obtain ⟨t, ht, _, _, _, hpw⟩ := uniqueify_eq_of_aux l
  rw [ht]
  exact hpw

theorem uniqAux_eq_append :
    ∀ (l acc : List String), l.Nodup → (∀ a ∈ l, a ∉ acc) → uniqAux l acc = acc ++ l := by
  intro l
  induction l with
  | nil => intro acc _ _; simp [uniqAux]
  | cons x xs ih =>
    intro acc hnd hdisj
    have hx : x ∉ acc := hdisj x (List.mem_cons_self x xs)
    rw [List.nodup_cons] at hnd
    rw [show uniqAux (x :: xs) acc = uniqAux xs (acc ++ [x]) from by simp [uniqAux, hx]]
    rw [ih (acc ++ [x]) hnd.2 ?_]
    · rw [List.append_assoc]
      rfl
    · intro a ha hin
      cases List.mem_append.mp hin with
      | inl h => exact hdisj a (List.mem_cons_of_mem _ ha) h
      | inr h => exact hnd.1 (List.mem_singleton.mp h ▸ ha)

theorem uniqueify_eq_self {l : List String} (h : l.Nodup) : uniqueify l = l := by
  have h2 := uniqAux_eq_append l [] h (by simp)
  simpa [uniqueify] using h2

theorem urlOf_injective : Function.Injective urlOf := by
  intro a b h
  have hd : ("/watch?v=" ++ a).data = ("/watch?v=" ++ b).data := congrArg String.data h
  rw [String.data_append, String.data_append] at hd
  have hab := List.append_cancel_left hd
  cases a
  cases b
  exact congrArg String.mk hab

theorem fullVideoId_ne_attr (x : Json) : fullVideoId x ≠ .error .attributeError :=
  bind_ne_attr _ _ (getKey_ne_attr _ _) fun _ =>
  bind_ne_attr _ _ (getKey_ne_attr _ _) fun _ =>
  bind_ne_attr _ _ (getKey_ne_attr _ _) fun _ => getKey_ne_attr _ _

theorem reelVideoId_ne_attr (x : Json) : reelVideoId x ≠ .error .attributeError :=
  bind_ne_attr _ _ (getKey_ne_attr _ _) fun _ =>
  bind_ne_attr _ _ (getKey_ne_attr _ _) fun _ =>
  bind_ne_attr _ _ (getKey_ne_attr _ _) fun _ => getKey_ne_attr _ _

theorem fullVideoId_err_caught {x : Json} {e : Exc} (h : fullVideoId x = .error e) :
    caughtKIT e = true :=
  ne_attr_caught (h ▸ fullVideoId_ne_attr x)

theorem extractIdsLoop_err_caught {f : Json → Except Exc Json}
    (hf : ∀ x e, f x = .error e → caughtKIT e = true) :
    ∀ (xs : List Json) (acc : List String) (e : Exc),
      (extractIdsLoop f xs acc).2 = some e → caughtKIT e = true := by
  intro xs
  induction xs with
  | nil => intro acc e h; simp [extractIdsLoop] at h
  | cons x rest ih =>
    intro acc e h
    rw [extractIdsLoop] at h
    cases hx : f x with
    | ok v =>
      rw [hx] at h
      exact ih _ e h
    | error e2 =>
      rw [hx] at h
      simp at h
      exact h ▸ hf x e2 hx

/-- C1 counterexample: a document that matches none of the three shapes (no
tier succeeds) but whose tab scan reaches a numeric `url` value: the call
raises `AttributeError` instead of returning `([], None)`. -/
theorem c1_counterexample :
    extract_videos st0 badUrlDoc = (st0, .error .attributeError)
    ∧ tryFullPage st0.html_url badUrlDoc = .error .attributeError
    ∧ tryWrappedContinuation badUrlDoc = .error .keyError
    ∧ tryBareContinuation badUrlDoc = .error .keyError
    ∧ (extract_videos st0 badUrlDoc).2 ≠ .ok ([], Json.null) := by
  refine ⟨rfl, rfl, rfl, rfl, ?_⟩
  intro h
  rw [show (extract_videos st0 badUrlDoc).2 = Except.error Exc.attributeError from rfl] at h
  exact nomatch h

theorem all_tiers_fail (st : ChannelState) (doc : Json) (e1 e2 e3 : Exc)
    (h1 : tryFullPage st.html_url doc = .error e1) (hc1 : caughtKIT e1 = true)
    (h2 : tryWrappedContinuation doc = .error e2)
    (h3 : tryBareContinuation doc = .error e3) :
    extract_videos st doc = (st, .ok ([], Json.null)) := by
  have hc2 := tryWrappedContinuation_err_caught h2
  have hc3 := tryBareContinuation_err_caught h3
  simp [extract_videos, h1, hc1, h2, hc2, h3, hc3]

/-- C1 (amended): for every input document on which each of the three shape
tiers fails with one of the caught structural errors (`KeyError`,
`IndexError`, `TypeError`), `_extract_videos` returns `([], None)` without
raising and without touching the state; a document whose full-page tab scan
reaches a non-string URL value instead raises an uncaught `AttributeError`. -/
theorem c1_amended (st : ChannelState) (doc : Json) (e1 e2 e3 : Exc)
    (h1 : tryFullPage st.html_url doc = .error e1) (hc1 : caughtKIT e1 = true)
    (h2 : tryWrappedContinuation doc = .error e2)
    (h3 : tryBareContinuation doc = .error e3) :
    extract_videos st doc = (st, .ok ([], Json.null)) :=
  all_tiers_fail st doc e1 e2 e3 h1 hc1 h2 h3

/-- C1 witness: `json.loads("null")` matches no shape; every tier fails with
`TypeError` and the call returns `([], None)`. -/
theorem c1_witness : extract_videos st0 Json.null = (st0, .ok ([], Json.null)) :=
  c1_amended st0 Json.null .typeError .typeError .typeError rfl rfl rfl rfl

/-- C2 counterexample: a located list to which neither variant path applies
(its one real item has an empty `content` node): the short-form retry raises
an uncaught `KeyError`, so the page's continuation token "TOK" is lost
instead of being returned with an empty identifier list. -/
theorem c2_counterexample :
    (extract_videos st0 (bareContinuationDoc
        [Json.obj [("richItemRenderer", Json.obj [("content", Json.obj [])])],
         contMarker "TOK"])).2 = .error .keyError
    ∧ (extract_videos st0 (bareContinuationDoc
        [Json.obj [("richItemRenderer", Json.obj [("content", Json.obj [])])],
         contMarker "TOK"])).2 ≠ .ok ([], .str "TOK") := by
  refine ⟨rfl, ?_⟩
  intro h
  rw [show (extract_videos st0 (bareContinuationDoc
      [Json.obj [("richItemRenderer", Json.obj [("content", Json.obj [])])],
       contMarker "TOK"])).2 = Except.error Exc.keyError from rfl] at h
  exact nomatch h

/-- C2 (amended): when neither the full-video path nor the short-form path
applies to the whole located list, `_extract_videos` does not return an empty
identifier list with the continuation token: the full-video pass's failure is
caught, but the short-form retry's failure propagates as an uncaught
exception, so the call raises and the token is lost. -/
theorem c2_amended (st : ChannelState) (xs : List Json) (tok : String) (e1 e2 : Exc)
    (h1 : (extractIdsLoop fullVideoId xs []).2 = some e1)
    (h2 : (extractIdsLoop reelVideoId xs []).2 = some e2) :
    (extract_videos st (bareContinuationDoc (xs ++ [contMarker tok]))).2 = .error e2 := by
  rw [extract_videos_bareDoc]
  show processVideos (.arr (xs ++ [contMarker tok])) = .error e2
  have hstrip := stripContinuation_marker xs tok
  have hurls : extractVideoUrls (.arr xs) = .error e2 := by
    rw [extractVideoUrls_arr]
    rcases hp : extractIdsLoop fullVideoId xs [] with ⟨urls, oe⟩
    rw [hp] at h1
    simp only at h1
    subst h1
    have hc1 : caughtKIT e1 = true := by
      apply extractIdsLoop_err_caught (fun x e hx => fullVideoId_err_caught hx) xs []
      rw [hp]
    rcases hq : extractIdsLoop reelVideoId xs urls with ⟨urls2, oe2⟩
    have hoe2 : oe2 = some e2 := by
      have hind := extractIdsLoop_snd_indep reelVideoId xs urls []
      rw [hq, h2] at hind
      exact hind
    subst hoe2
    simp [hc1, hq]
  simp [processVideos, hstrip, ok_bind, hurls, err_bind]

/-- C2 witness: a list with a single item carrying neither renderer makes the
call raise `KeyError` from the short-form retry. -/
theorem c2_witness :
    (extract_videos st0 (bareContinuationDoc
      ([Json.obj [("richItemRenderer", Json.obj [("content", Json.obj [])])]]
        ++ [contMarker "TOK"]))).2 = .error .keyError :=
  c2_amended st0 [Json.obj [("richItemRenderer", Json.obj [("content", Json.obj [])])]]
    "TOK" .keyError .keyError rfl rfl

/-- C3 counterexample: in the list `[full "a", broken, full "b"]` the broken
item is not skipped: the call raises `KeyError` and the identifiers of the
other two items are not returned. -/
theorem c3_counterexample :
    (extract_videos st0 (bareContinuationDoc
        [fullVideoItem "a", Json.obj [], fullVideoItem "b"])).2 = .error .keyError
    ∧ (extract_videos st0 (bareContinuationDoc
        [fullVideoItem "a", Json.obj [], fullVideoItem "b"])).2
      ≠ .ok (["/watch?v=a", "/watch?v=b"], Json.null) := by
  refine ⟨rfl, ?_⟩
  intro h
  rw [show (extract_videos st0 (bareContinuationDoc
      [fullVideoItem "a", Json.obj [], fullVideoItem "b"])).2
      = Except.error Exc.keyError from rfl] at h
  exact nomatch h

/-- C3 (amended): a single item missing the expected identifier fields is not
skipped: it aborts the full-video pass (already-appended identifiers are
kept in the accumulator) and triggers the whole-list short-form retry, which
fails on the first full-video item with an uncaught `KeyError`, so the page
yields an exception and no identifiers at all. -/
theorem c3_amended (st : ChannelState) (a b : String) (broken : Json) (e : Exc)
    (hbrk : fullVideoId broken = .error e) :
    (extract_videos st (bareContinuationDoc
        [fullVideoItem a, broken, fullVideoItem b])).2 = .error .keyError := by
  rw [extract_videos_bareDoc]
  show processVideos (.arr [fullVideoItem a, broken, fullVideoItem b]) = .error .keyError
  have hc : caughtKIT e = true := fullVideoId_err_caught hbrk
  have hful : fullVideoId (fullVideoItem a) = .ok (.str a) := rfl
  have hreel : reelVideoId (fullVideoItem a) = .error .keyError := rfl
  have hloop1 : extractIdsLoop fullVideoId [fullVideoItem a, broken, fullVideoItem b] []
      = (["/watch?v=" ++ a], some e) := by
    simp [extractIdsLoop, hful, hbrk, Json.pyStr]
  have hloop2 : extractIdsLoop reelVideoId [fullVideoItem a, broken, fullVideoItem b]
      ["/watch?v=" ++ a] = (["/watch?v=" ++ a], some .keyError) := by
    simp [extractIdsLoop, hreel]
  have hurls : extractVideoUrls (.arr [fullVideoItem a, broken, fullVideoItem b])
      = .error .keyError := by
    rw [extractVideoUrls_arr, hloop1]
    simp [hc, hloop2]
  have hnm : continuationTokenOf (fullVideoItem b) = .error .keyError := rfl
  have hstrip := stripContinuation_no_marker hnm rfl [fullVideoItem a, broken]
  simp only [show ([fullVideoItem a, broken] ++ [fullVideoItem b])
      = [fullVideoItem a, broken, fullVideoItem b] from rfl] at hstrip
  simp [processVideos, hstrip, ok_bind, hurls, err_bind]

/-- C3 witness: with the empty dict as the broken middle item the call raises
`KeyError`. -/
theorem c3_witness :
    (extract_videos st0 (bareContinuationDoc
        [fullVideoItem "a", Json.obj [], fullVideoItem "b"])).2 = .error .keyError :=
  c3_amended st0 "a" "b" (Json.obj []) .keyError rfl

/-- C4 counterexample: a located list whose last item is an array — not a
continuation-marker variant — does not give an absent token with no item
removed: the probe's `TypeError` is not in the probe's catch tuple
`(KeyError, IndexError)` and the call raises. -/
theorem c4_counterexample :
    (extract_videos st0 (bareContinuationDoc [Json.arr []])).2 = .error .typeError
    ∧ (extract_videos st0 (bareContinuationDoc [Json.arr []])).2 ≠ .ok ([], Json.null) := by
  refine ⟨rfl, ?_⟩
  intro h
  rw [show (extract_videos st0 (bareContinuationDoc [Json.arr []])).2
      = Except.error Exc.typeError from rfl] at h
  exact nomatch h

/-- C4 (amended): if the last item carries the full continuation chain, its
token is captured and the item excluded, leaving a list exactly one shorter;
if the probe on the last item instead fails with a caught `KeyError` or
`IndexError` (e.g. any object lacking the chain), the token is absent and no
item is removed; a probe failure outside that catch tuple (a `TypeError` from
a non-object last item) propagates. -/
theorem c4_amended (xs : List Json) (x : Json) (tok : String) (e : Exc) :
    (stripContinuation (.arr (xs ++ [contMarker tok])) = .ok (.arr xs, .str tok)
      ∧ (xs ++ [contMarker tok]).length = xs.length + 1)
    ∧ (continuationTokenOf x = .error e → caughtKI e = true →
        stripContinuation (.arr (xs ++ [x])) = .ok (.arr (xs ++ [x]), Json.null)) :=
  ⟨⟨stripContinuation_marker xs tok, by simp⟩,
   fun h1 h2 => stripContinuation_no_marker h1 h2 xs⟩

/-- C4 witness: a well-formed trailing marker is stripped and its token
captured; a full-video last item leaves the list intact with no token. -/
theorem c4_witness :
    stripContinuation (.arr ([fullVideoItem "v1"] ++ [contMarker "T"]))
      = .ok (.arr [fullVideoItem "v1"], .str "T")
    ∧ stripContinuation (.arr ([fullVideoItem "v1"] ++ [fullVideoItem "v2"]))
      = .ok (.arr ([fullVideoItem "v1"] ++ [fullVideoItem "v2"]), Json.null) :=
  ⟨(c4_amended [fullVideoItem "v1"] (fullVideoItem "v2") "T" .keyError).1.1,
   (c4_amended [fullVideoItem "v1"] (fullVideoItem "v2") "T" .keyError).2 rfl rfl⟩

/-- C5 counterexample: a full-page document whose tab list and grid are
present (the grid holds one full-video item) but which has no root
`responseContext`: the full-page tier does not succeed with the session token
left unset — the whole tier fails and the call returns `([], None)` instead
of the grid's identifier. -/
theorem c5_counterexample :
    locateGrid st0.html_url (fullPageDocNoVisitor [fullVideoItem "abc"])
      = .ok (.arr [fullVideoItem "abc"])
    ∧ visitorDataOf (fullPageDocNoVisitor [fullVideoItem "abc"]) = .error .keyError
    ∧ extract_videos st0 (fullPageDocNoVisitor [fullVideoItem "abc"])
      = (st0, .ok ([], Json.null))
    ∧ (extract_videos st0 (fullPageDocNoVisitor [fullVideoItem "abc"])).2
      ≠ .ok (["/watch?v=abc"], Json.null) := by
  refine ⟨rfl, rfl, rfl, ?_⟩
  intro h
  rw [show (extract_videos st0 (fullPageDocNoVisitor [fullVideoItem "abc"])).2
      = Except.ok (([] : List String), Json.null) from rfl] at h
  have h2 : ([] : List String) = ["/watch?v=abc"] := congrArg Prod.fst (Except.ok.inj h)
  exact nomatch h2

/-- C5 (amended): when the grid is located but the root visitorData node is
absent, the full-page tier fails as a whole (the visitor-data lookup lives in
the same `try` block); on a document where both continuation tiers also fail,
the call returns `([], None)` with the state untouched — the grid's items are
not extracted. -/
theorem c5_amended (st : ChannelState) (doc : Json) (videos : Json) (e e2 e3 : Exc)
    (hg : locateGrid st.html_url doc = .ok videos)
    (hv : visitorDataOf doc = .error e)
    (h2 : tryWrappedContinuation doc = .error e2)
    (h3 : tryBareContinuation doc = .error e3) :
    extract_videos st doc = (st, .ok ([], Json.null)) := by
  have h1 : tryFullPage st.html_url doc = .error e := by
    simp [tryFullPage, hg, ok_bind, hv, err_bind]
  exact all_tiers_fail st doc e e2 e3 h1 (visitorDataOf_err_caught hv) h2 h3

/-- C5 witness: the concrete visitorless full-page document with one grid item
yields `([], None)`. -/
theorem c5_witness :
    extract_videos st0 (fullPageDocNoVisitor [fullVideoItem "abc"])
      = (st0, .ok ([], Json.null)) :=
  c5_amended st0 (fullPageDocNoVisitor [fullVideoItem "abc"])
    (.arr [fullVideoItem "abc"]) .keyError .keyError .keyError rfl rfl rfl rfl

/-- C6: a located content list built entirely of short-form (reel) renderer
items yields exactly the short-form identifiers of every item in order, and
the extraction loop pair agrees with the spec's two-pass procedure (full-video
pass over the whole list, then on failure one short-form pass over the entire
list). -/
theorem c6_theorem (st : ChannelState) (ids : List String) (h : ids.Nodup) :
    (extract_videos st (bareContinuationDoc (ids.map reelItem))).2
      = .ok (ids.map urlOf, Json.null)
    ∧ extractVideoUrls (.arr (ids.map reelItem)) = twoPassSpec (ids.map reelItem) := by
  constructor
  · rw [extract_videos_bareDoc]
    show processVideos (.arr (ids.map reelItem)) = _
    rw [processVideos_reel]
    rw [uniqueify_eq_self (List.Nodup.map urlOf_injective h)]
  · rw [extractVideoUrls_reel, twoPassSpec_reel]

/-- C6 witness: a two-item reel page yields its two identifiers in order and
agrees with the two-pass procedure. -/
theorem c6_witness :
    (extract_videos st0 (bareContinuationDoc (["idA", "idB"].map reelItem))).2
      = .ok (["idA", "idB"].map urlOf, Json.null)
    ∧ extractVideoUrls (.arr (["idA", "idB"].map reelItem))
      = twoPassSpec (["idA", "idB"].map reelItem) :=
  c6_theorem st0 ["idA", "idB"] (by decide)

/-- C7: the deduplication applied to the extracted identifier sequence keeps
each identifier exactly once (`Nodup` with unchanged membership), is a
subsequence of the raw sequence (so the extractor never reorders items), and
lists survivors in strictly increasing order of first occurrence. -/
theorem c7_theorem (l : List String) :
    (uniqueify l).Nodup ∧ (∀ a, a ∈ uniqueify l ↔ a ∈ l)
    ∧ List.Sublist (uniqueify l) l
    ∧ (uniqueify l).Pairwise (fun a b => l.indexOf a < l.indexOf b) :=
  ⟨uniqueify_nodup l, mem_uniqueify l, uniqueify_sublist l, uniqueify_pairwise l⟩

/-- C8: an empty located content list yields `([], None)`, and a located list
holding only a continuation marker yields `([], token)` — both at the level of
the post-locate pipeline and through `_extract_videos` itself. -/
theorem c8_theorem (st : ChannelState) (tok : String) :
    processVideos (.arr []) = .ok ([], Json.null)
    ∧ processVideos (.arr [contMarker tok]) = .ok ([], .str tok)
    ∧ (extract_videos st (bareContinuationDoc [])).2 = .ok ([], Json.null)
    ∧ (extract_videos st (bareContinuationDoc [contMarker tok])).2 = .ok ([], .str tok) :=
  ⟨rfl, rfl, rfl, rfl⟩

/-- C9: `_build_continuation_url` returns the browse endpoint parameterized by
the client API key, exactly the fixed client-name/client-version header pair,
and a POST body holding the continuation token, the stored session token (or
`None`), and the fixed client context block with client name `WEB` and the
fixed client version. -/
theorem c9_theorem (st : ChannelState) (continuation : String) :
    build_continuation_url st continuation =
      ("https://www.youtube.com/youtubei/v1/browse?key=" ++ st.yt_api_key,
       [("X-YouTube-Client-Name", "1"),
        ("X-YouTube-Client-Version", "2.20200720.00.02")],
       Json.obj [("continuation", .str continuation),
         ("context", .obj
           [("client", .obj
             [("clientName", .str "WEB"),
              ("visitorData", st.visitor_data),
              ("clientVersion", .str "2.20200720.00.02")])])]) := rfl

/-- C10: a call of `_extract_videos` changes no attribute of the channel other
than `_visitor_data`, and `_visitor_data` takes the document's visitor data
exactly when the full-page tier (including its visitorData node) succeeds,
keeping its previous value under both continuation tiers and on failure. -/
theorem c10_theorem (st : ChannelState) (doc : Json) :
    (extract_videos st doc).1 = { st with visitor_data := visitorDataAfter st doc } := by
  cases h : tryFullPage st.html_url doc with
  | ok p =>
    obtain ⟨v, vd⟩ := p
    simp [extract_videos, visitorDataAfter, h]
  | error e =>
    simp only [extract_videos, visitorDataAfter, h]
    have hr : ({ st with visitor_data := st.visitor_data } : ChannelState) = st := rfl
    rw [hr]
    split
    · split
      · rfl
      · split
        · split
          · rfl
          · split
            · rfl
            · rfl
        · rfl
    · rfl

end Pytube
